import Mathlib

/-!
Verification of the scanner and recursive-descent parser in `src/parser.py`.

The Python source is shallowly embedded: the scanner state is the immutable
remaining input (`input_string[current_char_index:]`) together with the
buffered `current_token`; every parser procedure becomes a function that
threads the scanner state explicitly and returns `Except PErr`, where `PErr`
records the observable outcome of each `print`/`sys.exit`/uncaught-exception
path of the source.  Recursive procedures take a fuel parameter; running out
of fuel is a distinguished outcome that no theorem treats as a parse result.
-/

/-- The token kinds enumerated in class `Token` of `src/parser.py`
(each Python attribute holds its own name as a string). -/
inductive Token where
  | DO | ELSE | END | IF | THEN | WHILE | READ | WRITE
  | SEM | BEC | LESS | EQ | GRTR | LEQ | NEQ | GEQ
  | ADD | SUB | MUL | DIV | LPAR | RPAR | NUM | ID
  deriving DecidableEq, Repr

/-- The string value a `Token` attribute holds in the Python source
(`DO = 'DO'`, ...); `unexpected_token` sorts the characters of this string. -/
def tokName : Token → List Char
  | .DO => "DO".toList
  | .ELSE => "ELSE".toList
  | .END => "END".toList
  | .IF => "IF".toList
  | .THEN => "THEN".toList
  | .WHILE => "WHILE".toList
  | .READ => "READ".toList
  | .WRITE => "WRITE".toList
  | .SEM => "SEM".toList
  | .BEC => "BEC".toList
  | .LESS => "LESS".toList
  | .EQ => "EQ".toList
  | .GRTR => "GRTR".toList
  | .LEQ => "LEQ".toList
  | .NEQ => "NEQ".toList
  | .GEQ => "GEQ".toList
  | .ADD => "ADD".toList
  | .SUB => "SUB".toList
  | .MUL => "MUL".toList
  | .DIV => "DIV".toList
  | .LPAR => "LPAR".toList
  | .RPAR => "RPAR".toList
  | .NUM => "NUM".toList
  | .ID => "ID".toList

/-- The shapes of the regular expressions appearing in `Token.token_regexp`:
every entry is either a literal string (after unescaping `\\+ \\* \\( \\)`),
the digit class `[0-9]+`, or the lower-case class `[a-z]+`. -/
inductive Pat where
  | lit (w : List Char)
  | digits
  | lower
  deriving DecidableEq, Repr

/-- `re.match(r, s)` for the pattern shapes of the token table: a literal
matches exactly itself as a prefix; the greedy classes match the maximal
nonempty run of digits / lower-case letters at the start of `s`.
Returns the matched prefix (`match.group()`), or `none` when there is
no match. -/
def patMatch : Pat → List Char → Option (List Char)
  | .lit w, s => if w.isPrefixOf s then some w else none
  | .digits, s =>
      let m := s.takeWhile Char.isDigit
      if m = [] then none else some m
  | .lower, s =>
      let m := s.takeWhile Char.isLower
      if m = [] then none else some m

/-- `Token.token_regexp` of the source, in source order. -/
def token_regexp : List (Token × Pat) :=
  [ (.DO,    .lit "do".toList),
    (.ELSE,  .lit "else".toList),
    (.END,   .lit "end".toList),
    (.IF,    .lit "if".toList),
    (.THEN,  .lit "then".toList),
    (.WHILE, .lit "while".toList),
    (.READ,  .lit "read".toList),
    (.WRITE, .lit "write".toList),
    (.SEM,   .lit ";".toList),
    (.BEC,   .lit ":=".toList),
    (.LESS,  .lit "<".toList),
    (.EQ,    .lit "=".toList),
    (.GRTR,  .lit ">".toList),
    (.LEQ,   .lit "<=".toList),
    (.NEQ,   .lit "!=".toList),
    (.GEQ,   .lit ">=".toList),
    (.ADD,   .lit "+".toList),
    (.SUB,   .lit "-".toList),
    (.MUL,   .lit "*".toList),
    (.DIV,   .lit "/".toList),
    (.LPAR,  .lit "(".toList),
    (.RPAR,  .lit ")".toList),
    (.NUM,   .digits),
    (.ID,    .lower) ]

/-- Python `str.isspace()`: true exactly on the code points Python treats
as whitespace — tab through carriage return (9–13), the separator controls
and the space (28–32), next line (133), no-break space (160), ogham space
mark (5760), the typographic spaces (8192–8202), line and paragraph
separators (8232, 8233), narrow no-break space (8239), medium mathematical
space (8287) and ideographic space (12288). -/
def pyIsSpace (c : Char) : Bool :=
  (9 ≤ c.toNat && c.toNat ≤ 13) || (28 ≤ c.toNat && c.toNat ≤ 32) ||
  c.toNat = 133 || c.toNat = 160 || c.toNat = 5760 ||
  (8192 ≤ c.toNat && c.toNat ≤ 8202) || c.toNat = 8232 || c.toNat = 8233 ||
  c.toNat = 8239 || c.toNat = 8287 || c.toNat = 12288

/-- `Scanner.skip_white_space`: consume characters while they are
white space (the cursor is the start of the returned suffix). -/
def skip_white_space (s : List Char) : List Char :=
  s.dropWhile pyIsSpace

/-- Observable outcomes of the error paths of `src/parser.py`. -/
inductive PErr where
  /-- `Scanner.no_token`: prints `lexical error: no token found at the start
  of` followed by the remaining input, then `sys.exit()`.  -/
  | lexical (rest : List Char)
  /-- `Scanner.unexpected_token` reached with a single expected token:
  prints `syntax error: token in` `repr(sorted(expected_tokens))` (the
  characters of the token's name, sorted) `expected but ... found`,
  then `sys.exit()`.  -/
  | synErr (expectedSorted : List Char) (found : Option Token)
  /-- The `TypeError` raised when `consume` calls
  `self.unexpected_token(token, *expected_tokens)` with a number of
  expected tokens other than one: the 2-parameter method receives the
  wrong number of arguments, so no diagnostic is printed.  -/
  | typeErr (found : Option Token) (args : List Token)
  /-- A `KeyError` from the `operator` dictionary (never reached). -/
  | keyErr
  /-- Models a Python return value that is not an AST node flowing out of
  an error branch such as `return scanner.consume(...)` (never reached:
  `consume` only returns when the lookahead is among the expected tokens,
  which those branches have excluded). -/
  | retNonNode
  /-- The module driver's check after `program()` returns: prints
  `syntax error: end of input expected but token ... found` and exits. -/
  | trailing (found : Token)
  /-- Fuel exhaustion of the embedding (not a behavior of the source). -/
  | noFuel
  deriving DecidableEq, Repr

/-- One iteration of the `for (t, r) in Token.token_regexp` loop of
`Scanner.get_token`: replace the running best match exactly when the new
match is strictly longer (`match.end() > len(longest)`). -/
def scanStep (s : List Char) (acc : Option Token × List Char) (e : Token × Pat) :
    Option Token × List Char :=
  match patMatch e.2 s with
  | some m => if acc.2.length < m.length then (some e.1, m) else acc
  | none => acc

/-- The whole matching loop of `Scanner.get_token`: fold `scanStep` over the
token table starting from `token, longest = None, ''`. -/
def findLongest (s : List Char) : Option Token × List Char :=
  token_regexp.foldl (scanStep s) (none, [])

/-- `Scanner.get_token` on the unprocessed input: skip white space, find the
longest match, report a lexical error when nothing matches before the end of
the input, otherwise consume the match.  Returns the new `current_token`
pair together with the remaining unprocessed input. -/
def get_token (input : List Char) :
    Except PErr ((Option Token × List Char) × List Char) :=
  let s := skip_white_space input
  let (token, longest) := findLongest s
  if token = none ∧ longest = [] then
    -- `if self.current_char_index < len(self.input_string) - len(longest)`
    if longest.length < s.length then .error (.lexical s)
    else .ok ((token, longest), s.drop longest.length)
  else .ok ((token, longest), s.drop longest.length)

/-- The scanner state: `rest` is `input_string[current_char_index:]` and
`current` is `current_token`. -/
structure Scanner where
  rest : List Char
  current : Option Token × List Char
  deriving DecidableEq, Repr

/-- `Scanner.__init__`: read the input and eagerly compute the first token. -/
def initScanner (input : List Char) : Except PErr Scanner :=
  match get_token input with
  | .error e => .error e
  | .ok (cur, rest) => .ok ⟨rest, cur⟩

/-- `Scanner.lookahead`: the kind of the buffered token (`None` = end). -/
def lookahead (sc : Scanner) : Option Token :=
  sc.current.1

/-- Insert a character into an ascending list (code-point order). -/
def insertChar (c : Char) : List Char → List Char
  | [] => [c]
  | d :: ds => if c ≤ d then c :: d :: ds else d :: insertChar c ds

/-- Python `sorted` on a list of characters. -/
def sortChars : List Char → List Char
  | [] => []
  | c :: cs => insertChar c (sortChars cs)

/-- The evaluation of `self.unexpected_token(token, *expected_tokens)` in
`consume`: the method has parameters `(found_token, expected_tokens)`, so the
unpacked call binds correctly only when exactly one expected token was
passed — `expected_tokens` is then that token's name string and
`sorted(expected_tokens)` is its characters in ascending order.  With any
other number of expected tokens the call itself raises `TypeError` and
nothing is printed. -/
def unexpected_token (found : Option Token) (args : List Token) : PErr :=
  match args with
  | [e] => .synErr (sortChars (tokName e)) found
  | _ => .typeErr found args

/-- What `Scanner.consume` returns: `NUM` and `ID` return the pair of the
token and its matched value, every other token returns just the token. -/
inductive ConsumeRet where
  | tok (t : Token)
  | pair (t : Token) (value : List Char)
  deriving DecidableEq, Repr

/-- `Scanner.consume(*expected_tokens)`: if the buffered token is among the
expected ones, refill the buffer from the remaining input and return the
consumed token (with its value for `NUM`/`ID`); otherwise evaluate
`self.unexpected_token(token, *expected_tokens)`. -/
def consume (expected : List Token) (sc : Scanner) :
    Except PErr (ConsumeRet × Scanner) :=
  let (token, longest) := sc.current
  match token with
  | some t =>
      if t ∈ expected then
        match get_token sc.rest with
        | .error e => .error e
        | .ok (cur, rest) =>
            if t = .ID then .ok (.pair t longest, ⟨rest, cur⟩)
            else if t = .NUM then .ok (.pair t longest, ⟨rest, cur⟩)
            else .ok (.tok t, ⟨rest, cur⟩)
      else .error (unexpected_token (some t) expected)
  | none => .error (unexpected_token none expected)

deriving instance DecidableEq for Except

example : get_token ("whilex".toList) = .ok ((some .ID, "whilex".toList), []) := by decide
example : get_token ("while".toList) = .ok ((some .WHILE, "while".toList), []) := by decide
example : get_token ("<=".toList) = .ok ((some .LEQ, "<=".toList), []) := by decide
example : get_token ("  ".toList) = .ok ((none, []), []) := by decide
example : get_token ("?x".toList) = .error (.lexical "?x".toList) := by decide
example : initScanner ("x := 1".toList) =
    .ok ⟨" := 1".toList, (some .ID, "x".toList)⟩ := by decide

/-- The abstract syntax tree classes of `src/parser.py`.  A `Statements_AST`
holds a Python list whose elements are the return values of `statement()`;
since `if_statement` can fall through and return `None`, the element type is
`Option AST`. -/
inductive AST where
  | Program_AST (program : AST)
  | Statements_AST (statements : List (Option AST))
  | If_Else_AST (condition thenPart again : AST)
  | If_AST (condition thenPart : AST)
  | While_AST (condition body : AST)
  | Assign_AST (identifier expression : AST)
  | Write_AST (expression : AST)
  | Read_AST (identifier : AST)
  | Comparison_AST (left : AST) (op : String) (right : AST)
  | Expression_AST (left : AST) (op : String) (right : AST)
  | Number_AST (number : List Char)
  | Identifier_AST (identifier : List Char)
  deriving Repr

/-- The `operator` dictionary mapping operator tokens to their symbols. -/
def operator : Token → Option String
  | .LESS => some "<"
  | .EQ => some "="
  | .GRTR => some ">"
  | .LEQ => some "<="
  | .NEQ => some "!="
  | .GEQ => some ">="
  | .ADD => some "+"
  | .SUB => some "-"
  | .MUL => some "*"
  | .DIV => some "/"
  | _ => none

/-- The subscript `operator[op]` where `op` is a value returned by `consume`:
a missing key would raise `KeyError` (never reached — the call sites only
pass operator tokens, for which `consume` returns the bare token). -/
def operatorLookup : ConsumeRet → Except PErr String
  | .tok t => match operator t with
    | some s => .ok s
    | none => .error .keyErr
  | .pair _ _ => .error .keyErr

/-- Result type of an embedded parser procedure: the built value together
with the scanner state it leaves behind. -/
abbrev PRes (α : Type) := Except PErr (α × Scanner)

/-- `identifier()`: `value = scanner.consume(Token.ID)[1]`. -/
def identifier (sc : Scanner) : PRes AST :=
  match consume [.ID] sc with
  | .error e => .error e
  | .ok (.pair _ v, sc1) => .ok (.Identifier_AST v, sc1)
  | .ok (.tok _, _) => .error .retNonNode
  -- unreachable: `consume [.ID]` succeeds only on an `ID`, which returns the pair

mutual

/-- `expression()`: `result = term()`, then the `ADD`/`SUB` folding loop. -/
def expression : Nat → Scanner → PRes AST
  | 0, _ => .error .noFuel
  | n + 1, sc =>
    match term n sc with
    | .error e => .error e
    | .ok (result, sc1) => exprLoop n result sc1

/-- The `while scanner.lookahead() in [Token.ADD, Token.SUB]` loop of
`expression()`. -/
def exprLoop : Nat → AST → Scanner → PRes AST
  | 0, _, _ => .error .noFuel
  | n + 1, result, sc =>
    if lookahead sc ∈ [some Token.ADD, some Token.SUB] then
      match consume [.ADD, .SUB] sc with
      | .error e => .error e
      | .ok (op, sc1) =>
        match operatorLookup op with
        | .error e => .error e
        | .ok sym =>
          match term n sc1 with
          | .error e => .error e
          | .ok (tree, sc2) => exprLoop n (.Expression_AST result sym tree) sc2
    else .ok (result, sc)

/-- `term()`: `result = factor()`, then the `MUL`/`DIV` folding loop. -/
def term : Nat → Scanner → PRes AST
  | 0, _ => .error .noFuel
  | n + 1, sc =>
    match factor n sc with
    | .error e => .error e
    | .ok (result, sc1) => termLoop n result sc1

/-- The `while scanner.lookahead() in [Token.MUL, Token.DIV]` loop of
`term()`. -/
def termLoop : Nat → AST → Scanner → PRes AST
  | 0, _, _ => .error .noFuel
  | n + 1, result, sc =>
    if lookahead sc ∈ [some Token.MUL, some Token.DIV] then
      match consume [.MUL, .DIV] sc with
      | .error e => .error e
      | .ok (op, sc1) =>
        match operatorLookup op with
        | .error e => .error e
        | .ok sym =>
          match factor n sc1 with
          | .error e => .error e
          | .ok (tree, sc2) => termLoop n (.Expression_AST result sym tree) sc2
    else .ok (result, sc)

/-- `factor()`: parenthesised expression, number, identifier, or the error
branch `return scanner.consume(Token.LPAR, Token.NUM, Token.ID)`. -/
def factor : Nat → Scanner → PRes AST
  | 0, _ => .error .noFuel
  | n + 1, sc =>
    if lookahead sc = some Token.LPAR then
      match consume [.LPAR] sc with
      | .error e => .error e
      | .ok (_, sc1) =>
        match expression n sc1 with
        | .error e => .error e
        | .ok (result, sc2) =>
          match consume [.RPAR] sc2 with
          | .error e => .error e
          | .ok (_, sc3) => .ok (result, sc3)
    else if lookahead sc = some Token.NUM then
      match consume [.NUM] sc with
      | .error e => .error e
      | .ok (.pair _ v, sc1) => .ok (.Number_AST v, sc1)
      | .ok (.tok _, _) => .error .retNonNode
    else if lookahead sc = some Token.ID then identifier sc
    else
      match consume [.LPAR, .NUM, .ID] sc with
      | .error e => .error e
      | .ok _ => .error .retNonNode
      -- unreachable: the lookahead is none of the expected tokens here

end

/-- `comparison()`: `Expression RelOp Expression`. -/
def comparison (n : Nat) (sc : Scanner) : PRes AST :=
  match expression n sc with
  | .error e => .error e
  | .ok (left, sc1) =>
    match consume [.LESS, .EQ, .GRTR, .LEQ, .NEQ, .GEQ] sc1 with
    | .error e => .error e
    | .ok (op, sc2) =>
      match operatorLookup op with
      | .error e => .error e
      | .ok sym =>
        match expression n sc2 with
        | .error e => .error e
        | .ok (right, sc3) => .ok (.Comparison_AST left sym right, sc3)

/-- `assignment()`: `Id BEC Expression`. -/
def assignment (n : Nat) (sc : Scanner) : PRes AST :=
  match identifier sc with
  | .error e => .error e
  | .ok (ident, sc1) =>
    match consume [.BEC] sc1 with
    | .error e => .error e
    | .ok (_, sc2) =>
      match expression n sc2 with
      | .error e => .error e
      | .ok (expr, sc3) => .ok (.Assign_AST ident expr, sc3)

/-- `read()`: `READ Id`. -/
def read (sc : Scanner) : PRes AST :=
  match consume [.READ] sc with
  | .error e => .error e
  | .ok (_, sc1) =>
    match identifier sc1 with
    | .error e => .error e
    | .ok (ident, sc2) => .ok (.Read_AST ident, sc2)

/-- `write()`: `WRITE Expression`. -/
def write (n : Nat) (sc : Scanner) : PRes AST :=
  match consume [.WRITE] sc with
  | .error e => .error e
  | .ok (_, sc1) =>
    match expression n sc1 with
    | .error e => .error e
    | .ok (expr, sc2) => .ok (.Write_AST expr, sc2)

mutual

/-- `statements()`: parse one statement, then the semicolon loop; wrap the
collected list in `Statements_AST`. -/
def statements : Nat → Scanner → PRes AST
  | 0, _ => .error .noFuel
  | n + 1, sc =>
    match statement n sc with
    | .error e => .error e
    | .ok (st, sc1) =>
      match stmtLoop n [st] sc1 with
      | .error e => .error e
      | .ok (l, sc2) => .ok (.Statements_AST l, sc2)

/-- The `while scanner.lookahead() == Token.SEM` loop of `statements()`. -/
def stmtLoop : Nat → List (Option AST) → Scanner →
    Except PErr (List (Option AST) × Scanner)
  | 0, _, _ => .error .noFuel
  | n + 1, result, sc =>
    if lookahead sc = some Token.SEM then
      match consume [.SEM] sc with
      | .error e => .error e
      | .ok (_, sc1) =>
        match statement n sc1 with
        | .error e => .error e
        | .ok (st, sc2) => stmtLoop n (result ++ [st]) sc2
    else .ok (result, sc)

/-- `statement()`: dispatch on the lookahead; the final branch is
`return scanner.consume(Token.IF, Token.WHILE, Token.ID)`. -/
def statement : Nat → Scanner → Except PErr (Option AST × Scanner)
  | 0, _ => .error .noFuel
  | n + 1, sc =>
    if lookahead sc = some Token.IF then if_statement n sc
    else if lookahead sc = some Token.WHILE then
      match while_statement n sc with
      | .error e => .error e
      | .ok (a, sc1) => .ok (some a, sc1)
    else if lookahead sc = some Token.ID then
      match assignment n sc with
      | .error e => .error e
      | .ok (a, sc1) => .ok (some a, sc1)
    else if lookahead sc = some Token.READ then
      match read sc with
      | .error e => .error e
      | .ok (a, sc1) => .ok (some a, sc1)
    else if lookahead sc = some Token.WRITE then
      match write n sc with
      | .error e => .error e
      | .ok (a, sc1) => .ok (some a, sc1)
    else
      match consume [.IF, .WHILE, .ID] sc with
      | .error e => .error e
      | .ok _ => .error .retNonNode
      -- unreachable: the lookahead is none of the expected tokens here

/-- `if_statement()`: after `IF Comparison THEN Statements`, an `ELSE`
lookahead selects the `If_Else_AST` branch, an `END` lookahead the `If_AST`
branch, and any other lookahead falls off the end of the Python function,
returning `None`. -/
def if_statement : Nat → Scanner → Except PErr (Option AST × Scanner)
  | 0, _ => .error .noFuel
  | n + 1, sc =>
    match consume [.IF] sc with
    | .error e => .error e
    | .ok (_, sc1) =>
      match comparison n sc1 with
      | .error e => .error e
      | .ok (condition, sc2) =>
        match consume [.THEN] sc2 with
        | .error e => .error e
        | .ok (_, sc3) =>
          match statements n sc3 with
          | .error e => .error e
          | .ok (thenPart, sc4) =>
            if lookahead sc4 = some Token.ELSE then
              match consume [.ELSE] sc4 with
              | .error e => .error e
              | .ok (_, sc5) =>
                match statements n sc5 with
                | .error e => .error e
                | .ok (again, sc6) =>
                  match consume [.END] sc6 with
                  | .error e => .error e
                  | .ok (_, sc7) =>
                      .ok (some (.If_Else_AST condition thenPart again), sc7)
            else if lookahead sc4 = some Token.END then
              match consume [.END] sc4 with
              | .error e => .error e
              | .ok (_, sc5) => .ok (some (.If_AST condition thenPart), sc5)
            else .ok (none, sc4)

/-- `while_statement()`: `WHILE Comparison DO Statements END`. -/
def while_statement : Nat → Scanner → PRes AST
  | 0, _ => .error .noFuel
  | n + 1, sc =>
    match consume [.WHILE] sc with
    | .error e => .error e
    | .ok (_, sc1) =>
      match comparison n sc1 with
      | .error e => .error e
      | .ok (condition, sc2) =>
        match consume [.DO] sc2 with
        | .error e => .error e
        | .ok (_, sc3) =>
          match statements n sc3 with
          | .error e => .error e
          | .ok (body, sc4) =>
            match consume [.END] sc4 with
            | .error e => .error e
            | .ok (_, sc5) => .ok (.While_AST condition body, sc5)

end

/-- `program()`: `Statements` wrapped in `Program_AST`. -/
def program (n : Nat) (sc : Scanner) : PRes AST :=
  match statements n sc with
  | .error e => .error e
  | .ok (sts, sc1) => .ok (.Program_AST sts, sc1)

/-- The module driver (`scanner = Scanner(sys.stdin)` … `print(ast.indented(0))`):
build the scanner, run `program`, and reject trailing input.  A `.ok ast`
result means the driver reaches its final statement and prints the rendering
of `ast`. -/
def driver (n : Nat) (input : List Char) : Except PErr AST :=
  match initScanner input with
  | .error e => .error e
  | .ok sc =>
    match program n sc with
    | .error e => .error e
    | .ok (ast, sc1) =>
      match lookahead sc1 with
      | some t => .error (.trailing t)
      | none => .ok ast

example : driver 50 ("x:=1".toList) =
    .ok (.Program_AST (.Statements_AST
      [some (.Assign_AST (.Identifier_AST "x".toList) (.Number_AST "1".toList))])) := rfl

mutual

/-- The single-line canonical rendering: the `__repr__` methods of the AST
classes.  `Expression_AST.__repr__` surrounds the node with parentheses;
`Statements_AST.__repr__` joins its items with `'; '`. -/
def reprAST : AST → String
  | .Program_AST p => reprAST p
  | .Statements_AST items =>
      match items with
      | [] => ""
      -- the parser never builds an empty list (Python would raise IndexError)
      | x :: rest => reprOptAST x ++ reprTailAST rest
  | .If_Else_AST c t a =>
      "if " ++ reprAST c ++ " then " ++ reprAST t ++ " else " ++ reprAST a ++ "end"
  | .If_AST c t => "if " ++ reprAST c ++ " then " ++ reprAST t ++ " end"
  | .While_AST c b => "while " ++ reprAST c ++ " do " ++ reprAST b ++ " end"
  | .Assign_AST i e => reprAST i ++ ":=" ++ reprAST e
  | .Write_AST e => "write " ++ reprAST e
  | .Read_AST i => "read " ++ reprAST i
  | .Comparison_AST l op r => reprAST l ++ op ++ reprAST r
  | .Expression_AST l op r => "(" ++ reprAST l ++ op ++ reprAST r ++ ")"
  | .Number_AST s => String.mk s
  | .Identifier_AST s => String.mk s

/-- `repr` applied to a list element of a `Statements_AST`: Python renders
`None` as `'None'`. -/
def reprOptAST : Option AST → String
  | none => "None"
  | some a => reprAST a

/-- The `for st in self.statements[1:]` loop of `Statements_AST.__repr__`. -/
def reprTailAST : List (Option AST) → String
  | [] => ""
  | st :: rest => "; " ++ reprOptAST st ++ reprTailAST rest

end

example :
    reprAST (.Expression_AST (.Expression_AST (.Number_AST "1".toList) "-"
      (.Number_AST "2".toList)) "-" (.Number_AST "3".toList)) = "((1-2)-3)" := by
  simp [reprAST]

/-- `runExpression n input` lexes `input` and runs `expression` on it. -/
def runExpression (n : Nat) (input : List Char) : PRes AST :=
  match initScanner input with
  | .error e => .error e
  | .ok sc => expression n sc

/-- `runFactor n input` lexes `input` and runs `factor` on it. -/
def runFactor (n : Nat) (input : List Char) : PRes AST :=
  match initScanner input with
  | .error e => .error e
  | .ok sc => factor n sc

/-- The scanner states reachable from some input: the state built by
`Scanner.__init__`, plus everything a successful `consume` leads to. -/
inductive Reach : List Char → Scanner → Prop where
  | init {input sc} : initScanner input = .ok sc → Reach input sc
  | consume_step {input sc expected r sc'} :
      Reach input sc → consume expected sc = .ok (r, sc') → Reach input sc'

section ScanLemmas

/-- One matching step never shrinks the running best match. -/
lemma scanStep_len_le (s : List Char) (acc : Option Token × List Char)
    (e : Token × Pat) : acc.2.length ≤ (scanStep s acc e).2.length := by
  unfold scanStep
  cases h : patMatch e.2 s with
  | none => exact le_refl _
  | some m =>
      by_cases hlt : acc.2.length < m.length
      · simp [hlt]
        exact le_of_lt hlt
      · simp [hlt]

/-- One matching step either keeps the accumulator (and then the entry's
match, if any, is no longer than the running best), or replaces it with a
strictly longer match of the entry. -/
lemma scanStep_cases (s : List Char) (acc : Option Token × List Char)
    (e : Token × Pat) :
    (scanStep s acc e = acc ∧
      ∀ m, patMatch e.2 s = some m → m.length ≤ acc.2.length) ∨
    (∃ m, patMatch e.2 s = some m ∧ scanStep s acc e = (some e.1, m) ∧
      acc.2.length < m.length) := by
  unfold scanStep
  cases h : patMatch e.2 s with
  | none => exact Or.inl ⟨rfl, by intro m hm; cases hm⟩
  | some m =>
      by_cases hlt : acc.2.length < m.length
      · exact Or.inr ⟨m, rfl, by simp [hlt], hlt⟩
      · refine Or.inl ⟨by simp [hlt], ?_⟩
        intro m' hm'
        cases hm'
        exact le_of_not_lt hlt

/-- Folding the matching step never shrinks the running best match. -/
lemma scanFold_len_le (s : List Char) :
    ∀ (l : List (Token × Pat)) (acc : Option Token × List Char),
      acc.2.length ≤ (l.foldl (scanStep s) acc).2.length := by
  intro l
  induction l with
  | nil => intro acc; exact le_refl _
  | cons e rest ih =>
      intro acc
      exact le_trans (scanStep_len_le s acc e) (ih (scanStep s acc e))

/-- Every match of an entry of the list is at most as long as the best match
the fold ends with. -/
lemma scanFold_match_le (s : List Char) :
    ∀ (l : List (Token × Pat)) (acc : Option Token × List Char)
      (e : Token × Pat), e ∈ l → ∀ m, patMatch e.2 s = some m →
      m.length ≤ (l.foldl (scanStep s) acc).2.length := by
  intro l
  induction l with
  | nil => intro acc e he; cases he
  | cons e0 rest ih =>
      intro acc e he m hm
      cases he with
      | head =>
          rcases scanStep_cases s acc e0 with ⟨hkeep, hle⟩ | ⟨m0, hm0, hupd, _⟩
          · calc m.length ≤ acc.2.length := hle m hm
              _ ≤ _ := by rw [List.foldl_cons, hkeep]; exact scanFold_len_le s rest acc
          · have : m0 = m := by rw [hm0] at hm; cases hm; rfl
            subst this
            calc m0.length = (scanStep s acc e0).2.length := by rw [hupd]
              _ ≤ _ := by rw [List.foldl_cons]; exact scanFold_len_le s rest _
      | tail _ htail =>
          rw [List.foldl_cons]
          exact ih (scanStep s acc e0) e htail m hm

/-- When the fold ends with a winning entry (rather than the initial
accumulator), that entry occurs in the list, its match is the final best
match, it is strictly longer than the initial best, and every entry listed
before it matches strictly shorter. -/
lemma scanFold_winner (s : List Char) :
    ∀ (l : List (Token × Pat)) (acc : Option Token × List Char)
      (t : Token) (m : List Char),
      l.foldl (scanStep s) acc = (some t, m) →
      acc = (some t, m) ∨
      ∃ pre r post, l = pre ++ (t, r) :: post ∧ patMatch r s = some m ∧
        acc.2.length < m.length ∧
        ∀ e ∈ pre, ∀ m', patMatch e.2 s = some m' → m'.length < m.length := by
  intro l
  induction l with
  | nil => intro acc t m h; exact Or.inl h
  | cons e0 rest ih =>
      intro acc t m h
      rw [List.foldl_cons] at h
      rcases ih (scanStep s acc e0) t m h with hacc | ⟨pre, r, post, hl, hr, hlt, hpre⟩
      · rcases scanStep_cases s acc e0 with ⟨hkeep, _⟩ | ⟨m0, hm0, hupd, hlt0⟩
        · exact Or.inl (hkeep ▸ hacc)
        · rw [hupd] at hacc
          have ht : e0.1 = t := by cases hacc; rfl
          have hm : m0 = m := by cases hacc; rfl
          refine Or.inr ⟨[], e0.2, rest, ?_, ?_, ?_, ?_⟩
          · simp [← ht]
          · rw [hm] at hm0; exact hm0
          · rw [← hm]; exact hlt0
          · intro e he; cases he
      · rcases scanStep_cases s acc e0 with ⟨hkeep, hle⟩ | ⟨m0, hm0, hupd, hlt0⟩
        · refine Or.inr ⟨e0 :: pre, r, post, by rw [hl]; rfl, hr, ?_, ?_⟩
          · calc acc.2.length = (scanStep s acc e0).2.length := by rw [hkeep]
              _ < m.length := hlt
          · intro e he m' hm'
            cases he with
            | head =>
                calc m'.length ≤ acc.2.length := hle m' hm'
                  _ = (scanStep s acc e0).2.length := by rw [hkeep]
                  _ < m.length := hlt
            | tail _ htail => exact hpre e htail m' hm'
        · refine Or.inr ⟨e0 :: pre, r, post, by rw [hl]; rfl, hr, ?_, ?_⟩
          · calc acc.2.length < m0.length := hlt0
              _ = (scanStep s acc e0).2.length := by rw [hupd]
              _ < m.length := hlt
          · intro e he m' hm'
            cases he with
            | head =>
                have : m' = m0 := by rw [hm0] at hm'; cases hm'; rfl
                subst this
                calc m'.length = (scanStep s acc e0).2.length := by rw [hupd]
                  _ < m.length := hlt
            | tail _ htail => exact hpre e htail m' hm'

/-- When no entry of the list matches, the fold returns its accumulator. -/
lemma scanFold_all_none (s : List Char) :
    ∀ (l : List (Token × Pat)) (acc : Option Token × List Char),
      (∀ e ∈ l, patMatch e.2 s = none) → l.foldl (scanStep s) acc = acc := by
  intro l
  induction l with
  | nil => intro acc _; rfl
  | cons e0 rest ih =>
      intro acc hnone
      rw [List.foldl_cons]
      have h0 : patMatch e0.2 s = none := hnone e0 (List.mem_cons_self e0 rest)
      have : scanStep s acc e0 = acc := by unfold scanStep; rw [h0]
      rw [this]
      exact ih acc (fun e he => hnone e (List.mem_cons_of_mem e0 he))

end ScanLemmas

/-- The semicolon loop of `statements()` only ever appends to the list it
was given, so it cannot return an empty list from a nonempty one. -/
lemma stmtLoop_ne_nil :
    ∀ (n : Nat) (acc : List (Option AST)) (sc : Scanner)
      (l : List (Option AST)) (sc' : Scanner),
      stmtLoop n acc sc = .ok (l, sc') → acc ≠ [] → l ≠ [] := by
  intro n
  induction n with
  | zero => intro acc sc l sc' h; cases h
  | succ n ih =>
      intro acc sc l sc' h hacc
      rw [stmtLoop] at h
      split at h
      · split at h
        · cases h
        · split at h
          · cases h
          · rename_i st sc2 _
            exact ih (acc ++ [st]) sc2 l sc' h (by simp)
      · cases h
        exact hacc

/-- A successful `consume` refills the token buffer with the result of
`get_token` on the remaining input and moves the cursor to what that scan
leaves over. -/
lemma consume_get_token {expected : List Token} {sc : Scanner}
    {r : ConsumeRet} {sc' : Scanner} (h : consume expected sc = .ok (r, sc')) :
    get_token sc.rest = .ok (sc'.current, sc'.rest) := by
  obtain ⟨rest0, tok, lex⟩ := sc
  rw [consume] at h
  split at h
  split at h
  · split at h
    · split at h
      · cases h
      · rename_i heq2
        split at h
        · cases h; exact heq2
        · split at h
          · cases h; exact heq2
          · cases h; exact heq2
    · cases h
  · cases h

/-- Claim C1: the spec says an out-of-set `consume` reports the sorted set of
expected kinds and the found kind; the code instead unpacks the expected
kinds into the call `self.unexpected_token(token, *expected_tokens)`, which
with the three expected kinds `LPAR, NUM, ID` raises `TypeError` before any
diagnostic is printed.  Evaluating the run on `x := `: the found token is
the end-of-input marker and the expected kinds are `{LPAR, NUM, ID}`, but
the outcome is the `TypeError`, not the reported syntax error. -/
theorem C1_consume_typeerror_on_bad_factor :
    driver 50 ("x := ".toList) =
      .error (.typeErr none [Token.LPAR, Token.NUM, Token.ID]) := rfl

/-- Claim C2: at every cursor position the scanner selects the table entry
whose pattern matches the longest prefix, breaking equal-length ties in
favor of the earliest entry; consequently `whilex` lexes as one `ID` token
`whilex`, `while` lexes as the keyword `WHILE`, and `<=` lexes as `LEQ`. -/
theorem C2_maximal_munch :
    (∀ s : List Char,
      (∀ e ∈ token_regexp, ∀ m, patMatch e.2 s = some m →
        m.length ≤ (findLongest s).2.length) ∧
      (∀ t m, findLongest s = (some t, m) →
        ∃ pre r post, token_regexp = pre ++ (t, r) :: post ∧
          patMatch r s = some m ∧
          ∀ e ∈ pre, ∀ m', patMatch e.2 s = some m' → m'.length < m.length)) ∧
    get_token ("whilex".toList) = .ok ((some .ID, "whilex".toList), []) ∧
    get_token ("while".toList) = .ok ((some .WHILE, "while".toList), []) ∧
    get_token ("<=".toList) = .ok ((some .LEQ, "<=".toList), []) := by
  refine ⟨fun s => ⟨?_, ?_⟩, by decide, by decide, by decide⟩
  · intro e he m hm
    exact scanFold_match_le s token_regexp (none, []) e he m hm
  · intro t m h
    rcases scanFold_winner s token_regexp (none, []) t m h with
      hacc | ⟨pre, r, post, hl, hr, _, hpre⟩
    · simp at hacc
    · exact ⟨pre, r, post, hl, hr, hpre⟩

/-- Witness for C2: the `WHILE` entry of the table matches `whilex` with
length 5, so the selected match is at least that long (it is the 6-long
`ID` match). -/
theorem C2_maximal_munch_witness :
    ("while".toList).length ≤ (findLongest ("whilex".toList)).2.length :=
  (C2_maximal_munch.1 ("whilex".toList)).1 (Token.WHILE, Pat.lit "while".toList)
    (by decide) ("while".toList) (by decide)

/-- Claim C3: `1-2-3` parses to the left-nested tree rendering `((1-2)-3)`,
and `1+2*3` parses to the tree rendering `(1+(2*3))` in which `*` binds
tighter than `+`. -/
theorem C3_left_assoc_and_precedence :
    runExpression 20 ("1-2-3".toList) =
      .ok (.Expression_AST (.Expression_AST (.Number_AST "1".toList) "-"
        (.Number_AST "2".toList)) "-" (.Number_AST "3".toList),
        ⟨[], (none, [])⟩) ∧
    reprAST (.Expression_AST (.Expression_AST (.Number_AST "1".toList) "-"
      (.Number_AST "2".toList)) "-" (.Number_AST "3".toList)) = "((1-2)-3)" ∧
    runExpression 20 ("1+2*3".toList) =
      .ok (.Expression_AST (.Number_AST "1".toList) "+"
        (.Expression_AST (.Number_AST "2".toList) "*" (.Number_AST "3".toList)),
        ⟨[], (none, [])⟩) ∧
    reprAST (.Expression_AST (.Number_AST "1".toList) "+"
      (.Expression_AST (.Number_AST "2".toList) "*" (.Number_AST "3".toList))) =
      "(1+(2*3))" :=
  ⟨rfl, rfl, rfl, rfl⟩

/-- Claim C5: whenever the input's prefix parses as a complete `Program` but
the lookahead is then not the end-of-input marker, the driver reports the
trailing-input syntax error naming the leftover token's kind and terminates
without reaching the AST rendering. -/
theorem C5_trailing_input_rejection :
    ∀ (n : Nat) (input : List Char) (sc : Scanner) (ast : AST)
      (sc1 : Scanner) (t : Token),
      initScanner input = .ok sc → program n sc = .ok (ast, sc1) →
      lookahead sc1 = some t →
      driver n input = .error (.trailing t) := by
  intro n input sc ast sc1 t h1 h2 h3
  simp only [driver, h1, h2, h3]

/-- Witness for C5: `x:=1 end` parses `x:=1` as a complete program, leaving
`END` as the lookahead, and the driver errors out with the trailing-input
diagnostic instead of printing the AST. -/
theorem C5_trailing_input_rejection_witness :
    driver 50 ("x:=1 end".toList) = .error (.trailing Token.END) :=
  C5_trailing_input_rejection 50 ("x:=1 end".toList)
    ⟨":=1 end".toList, (some .ID, "x".toList)⟩
    (.Program_AST (.Statements_AST [some (.Assign_AST
      (.Identifier_AST "x".toList) (.Number_AST "1".toList))]))
    ⟨[], (some .END, "end".toList)⟩ Token.END rfl rfl rfl

/-- Claim C6: when the cursor, after skipping white space, stands before a
nonempty remainder on which no token-table entry matches, `get_token`
reports the lexical error identifying that remainder; the error propagates
through scanner construction and the driver, so no AST is produced. -/
theorem C6_lexical_error_fail_fast :
    ∀ (input s' : List Char), skip_white_space input = s' → s' ≠ [] →
      (∀ e ∈ token_regexp, patMatch e.2 s' = none) →
      get_token input = .error (.lexical s') ∧
      initScanner input = .error (.lexical s') ∧
      ∀ n, driver n input = .error (.lexical s') := by
  intro input s' hskip hne hnone
  have hfold : findLongest s' = (none, []) :=
    scanFold_all_none s' token_regexp (none, []) hnone
  have hget : get_token input = .error (.lexical s') := by
    simp only [get_token, hskip, hfold]
    simp [List.length_pos, hne]
  refine ⟨hget, ?_, ?_⟩
  · simp only [initScanner, hget]
  · intro n
    simp only [driver, initScanner, hget]

/-- Witness for C6: at `?x` no table entry matches, and the lexical error
naming `?x` is what scanning, construction and the driver all produce. -/
theorem C6_lexical_error_fail_fast_witness :
    get_token ("?x".toList) = .error (.lexical "?x".toList) ∧
    initScanner ("?x".toList) = .error (.lexical "?x".toList) ∧
    ∀ n, driver n ("?x".toList) = .error (.lexical "?x".toList) :=
  C6_lexical_error_fail_fast ("?x".toList) ("?x".toList) rfl
    (by decide) (by decide)

/-- Claim C7: `statements()` parses one statement before entering its
semicolon loop, so the list wrapped in `Statements_AST` is nonempty on every
input on which `statements` succeeds. -/
theorem C7_statements_nonempty :
    ∀ (n : Nat) (sc : Scanner) (ast : AST) (sc' : Scanner),
      statements n sc = .ok (ast, sc') →
      ∃ l, ast = .Statements_AST l ∧ l ≠ [] := by
  intro n sc ast sc' h
  cases n with
  | zero => cases h
  | succ n =>
      rw [statements] at h
      split at h
      · cases h
      · split at h
        · cases h
        · rename_i st sc1 hst x l sc2 heq
          cases h
          exact ⟨l, rfl, stmtLoop_ne_nil n [st] sc1 l _ heq (by simp)⟩

/-- Witness for C7: the parse of `read x` yields a `Statements_AST` node,
and its list is nonempty. -/
theorem C7_statements_nonempty_witness :
    ∃ l, AST.Statements_AST [some (.Read_AST (.Identifier_AST "x".toList))] =
      .Statements_AST l ∧ l ≠ [] :=
  C7_statements_nonempty 20 ⟨" x".toList, (some .READ, "read".toList)⟩
    (.Statements_AST [some (.Read_AST (.Identifier_AST "x".toList))])
    ⟨[], (none, [])⟩ rfl

/-- Claim C8 is false as stated: in the scanner state reached by
constructing a scanner on `a <`, the buffered lookahead is the `ID` token
`a`, but a fresh longest-match scan at the current cursor (which already
stands past the buffered token's lexeme) produces the `LESS` token. -/
theorem C8_lookahead_cursor_counterexample :
    ¬ (∀ (input : List Char) (sc : Scanner), Reach input sc →
        ∀ cur rest, get_token sc.rest = .ok (cur, rest) → cur = sc.current) := by
  intro hclaim
  have h := hclaim ("a <".toList) ⟨" <".toList, (some .ID, "a".toList)⟩
    (Reach.init rfl) (some .LESS, "<".toList) [] rfl
  exact absurd h (by decide)

/-- Claim C8, amended: in every reachable scanner state the buffered
lookahead is the token produced by a longest-match scan from the cursor
position at which the buffer was filled (at construction or by the previous
consumption), and the current cursor stands at the end of that token's
match — a fresh scan at the current cursor would yield the following
token instead. -/
theorem C8_lookahead_invariant_amended :
    ∀ (input : List Char) (sc : Scanner), Reach input sc →
      ∃ pre, get_token pre = .ok (sc.current, sc.rest) := by
  intro input sc h
  induction h with
  | init hinit =>
      refine ⟨input, ?_⟩
      unfold initScanner at hinit
      split at hinit
      · cases hinit
      · rename_i cur rest heq
        cases hinit
        exact heq
  | consume_step hr hc ih =>
      exact ⟨_, consume_get_token hc⟩

/-- Witness for the amended C8: the state reached by construction on `a <`
carries the buffer filled by the scan of the whole input. -/
theorem C8_lookahead_invariant_amended_witness :
    ∃ pre, get_token pre = .ok ((some Token.ID, "a".toList), " <".toList) :=
  C8_lookahead_invariant_amended ("a <".toList)
    ⟨" <".toList, (some .ID, "a".toList)⟩ (Reach.init rfl)

/-- Claim C9 is false as stated for the else-bearing form: on
`if x<1 then write x else write y`, after the else-branch `Statements` the
lookahead is the end-of-input marker (neither `ELSE` nor `END`), yet
`if_statement` does not return `None` — `scanner.consume(Token.END)`
reports a syntax error (whose one-token expected set is rendered as the
sorted characters `D`, `E`, `N` of `'END'`) and terminates the run. -/
theorem C9_if_else_missing_end_errors :
    if_statement 30 ⟨" x<1 then write x else write y".toList,
        (some Token.IF, "if".toList)⟩ =
      .error (.synErr "DEN".toList none) ∧
    driver 50 ("if x<1 then write x else write y".toList) =
      .error (.synErr "DEN".toList none) := ⟨rfl, rfl⟩

/-- Claim C9, amended: if after parsing the condition, `THEN` and the
then-branch `Statements` the lookahead is neither `ELSE` nor `END` — e.g.
at end of input in `if x<1 then write x` — then `if_statement` returns
`None` without reporting a syntax error, so the enclosing `Statements` node
contains a non-node entry; when an `ELSE` branch was parsed, a non-`END`
lookahead instead takes `consume`'s error exit. -/
theorem C9_if_fallthrough_none :
    (∀ (n : Nat) (sc sc1 sc2 sc3 sc4 : Scanner) (r1 r3 : ConsumeRet)
      (c th : AST),
      consume [.IF] sc = .ok (r1, sc1) →
      comparison n sc1 = .ok (c, sc2) →
      consume [.THEN] sc2 = .ok (r3, sc3) →
      statements n sc3 = .ok (th, sc4) →
      lookahead sc4 ≠ some Token.ELSE →
      lookahead sc4 ≠ some Token.END →
      if_statement (n + 1) sc = .ok (none, sc4)) ∧
    driver 50 ("if x<1 then write x".toList) =
      .ok (.Program_AST (.Statements_AST [none])) := by
  constructor
  · intro n sc sc1 sc2 sc3 sc4 r1 r3 c th h1 h2 h3 h4 h5 h6
    simp only [if_statement, h1, h2, h3, h4]
    rw [if_neg h5, if_neg h6]
  · rfl

/-- Witness for the amended C9: parsing `if x<1 then write x`, the
then-branch ends at end of input and `if_statement` succeeds with `None`. -/
theorem C9_if_fallthrough_none_witness :
    if_statement 20 ⟨" x<1 then write x".toList, (some Token.IF, "if".toList)⟩ =
      .ok (none, ⟨[], (none, [])⟩) :=
  C9_if_fallthrough_none.1 19
    ⟨" x<1 then write x".toList, (some .IF, "if".toList)⟩
    ⟨"<1 then write x".toList, (some .ID, "x".toList)⟩
    ⟨" write x".toList, (some .THEN, "then".toList)⟩
    ⟨" x".toList, (some .WRITE, "write".toList)⟩
    ⟨[], (none, [])⟩ (.tok .IF) (.tok .THEN)
    (.Comparison_AST (.Identifier_AST "x".toList) "<" (.Number_AST "1".toList))
    (.Statements_AST [some (.Write_AST (.Identifier_AST "x".toList))])
    rfl rfl rfl rfl (by decide) (by decide)

/-- Claim C4: after parsing `IF Comparison THEN Statements`, one token of
lookahead decides the form: `END` yields the plain `If_AST` variant and
`ELSE` yields the `If_Else_AST` variant; hence `if x<1 then write x end`
parses to `If_AST` and `if x<1 then write x else write x end` to
`If_Else_AST`. -/
theorem C4_if_form_disambiguation :
    (∀ (n : Nat) (sc sc1 sc2 sc3 sc4 : Scanner) (r1 r3 : ConsumeRet)
      (c th : AST),
      consume [.IF] sc = .ok (r1, sc1) →
      comparison n sc1 = .ok (c, sc2) →
      consume [.THEN] sc2 = .ok (r3, sc3) →
      statements n sc3 = .ok (th, sc4) →
      ((∀ r5 sc5, lookahead sc4 = some Token.END →
          consume [.END] sc4 = .ok (r5, sc5) →
          if_statement (n + 1) sc = .ok (some (.If_AST c th), sc5)) ∧
       (∀ r5 sc5 ag sc6 r7 sc7, lookahead sc4 = some Token.ELSE →
          consume [.ELSE] sc4 = .ok (r5, sc5) →
          statements n sc5 = .ok (ag, sc6) →
          consume [.END] sc6 = .ok (r7, sc7) →
          if_statement (n + 1) sc = .ok (some (.If_Else_AST c th ag), sc7)))) ∧
    driver 50 ("if x<1 then write x end".toList) =
      .ok (.Program_AST (.Statements_AST [some (.If_AST
        (.Comparison_AST (.Identifier_AST "x".toList) "<" (.Number_AST "1".toList))
        (.Statements_AST [some (.Write_AST (.Identifier_AST "x".toList))]))])) ∧
    driver 50 ("if x<1 then write x else write x end".toList) =
      .ok (.Program_AST (.Statements_AST [some (.If_Else_AST
        (.Comparison_AST (.Identifier_AST "x".toList) "<" (.Number_AST "1".toList))
        (.Statements_AST [some (.Write_AST (.Identifier_AST "x".toList))])
        (.Statements_AST [some (.Write_AST (.Identifier_AST "x".toList))]))])) := by
  refine ⟨?_, rfl, rfl⟩
  intro n sc sc1 sc2 sc3 sc4 r1 r3 c th h1 h2 h3 h4
  constructor
  · intro r5 sc5 hla h5
    simp only [if_statement, h1, h2, h3, h4, hla, h5]
    simp
  · intro r5 sc5 ag sc6 r7 sc7 hla h5 h6 h7
    simp only [if_statement, h1, h2, h3, h4, hla, h5, h6, h7]
    simp

/-- Witness for C4: the `END`-lookahead case at the concrete parse of
`if x<1 then write x end`. -/
theorem C4_if_form_disambiguation_witness :
    if_statement 20 ⟨" x<1 then write x end".toList, (some Token.IF, "if".toList)⟩ =
      .ok (some (.If_AST
        (.Comparison_AST (.Identifier_AST "x".toList) "<" (.Number_AST "1".toList))
        (.Statements_AST [some (.Write_AST (.Identifier_AST "x".toList))])),
        ⟨[], (none, [])⟩) :=
  ((C4_if_form_disambiguation.1 19
    ⟨" x<1 then write x end".toList, (some .IF, "if".toList)⟩
    ⟨"<1 then write x end".toList, (some .ID, "x".toList)⟩
    ⟨" write x end".toList, (some .THEN, "then".toList)⟩
    ⟨" x end".toList, (some .WRITE, "write".toList)⟩
    ⟨[], (some .END, "end".toList)⟩ (.tok .IF) (.tok .THEN)
    (.Comparison_AST (.Identifier_AST "x".toList) "<" (.Number_AST "1".toList))
    (.Statements_AST [some (.Write_AST (.Identifier_AST "x".toList))])
    rfl rfl rfl rfl).1) (.tok .END) ⟨[], (none, [])⟩ rfl rfl

/-- Claim C10: parentheses are not represented in the AST — when the
lookahead is `LPAR`, `factor` returns exactly the tree `expression` built
for the inside (after consuming `RPAR`), so `(x)` and `x` parse to the same
tree; and the canonical single-line rendering parenthesises every
`Expression_AST` node regardless of the source text. -/
theorem C10_parens_not_in_ast :
    (∀ (n : Nat) (sc sc1 sc2 sc3 : Scanner) (r1 r3 : ConsumeRet) (e : AST),
      lookahead sc = some Token.LPAR →
      consume [.LPAR] sc = .ok (r1, sc1) →
      expression n sc1 = .ok (e, sc2) →
      consume [.RPAR] sc2 = .ok (r3, sc3) →
      factor (n + 1) sc = .ok (e, sc3)) ∧
    runFactor 20 ("(x)".toList) =
      .ok (.Identifier_AST "x".toList, ⟨[], (none, [])⟩) ∧
    runFactor 20 ("x".toList) =
      .ok (.Identifier_AST "x".toList, ⟨[], (none, [])⟩) ∧
    (∀ (l : AST) (op : String) (r : AST),
      reprAST (.Expression_AST l op r) =
        "(" ++ reprAST l ++ op ++ reprAST r ++ ")") := by
  refine ⟨?_, rfl, rfl, ?_⟩
  · intro n sc sc1 sc2 sc3 r1 r3 e hla h1 h2 h3
    simp only [factor, hla, if_pos, h1, h2, h3]
  · intro l op r
    rw [reprAST]

/-- Witness for C10: the parenthesised-factor case at the concrete parse of
`(x)`. -/
theorem C10_parens_not_in_ast_witness :
    factor 20 ⟨"x)".toList, (some Token.LPAR, "(".toList)⟩ =
      .ok (.Identifier_AST "x".toList, ⟨[], (none, [])⟩) :=
  C10_parens_not_in_ast.1 19
    ⟨"x)".toList, (some .LPAR, "(".toList)⟩
    ⟨")".toList, (some .ID, "x".toList)⟩
    ⟨[], (some .RPAR, ")".toList)⟩
    ⟨[], (none, [])⟩ (.tok .LPAR) (.tok .RPAR)
    (.Identifier_AST "x".toList) rfl rfl rfl rfl
